import Mathlib

/-!
Verification of the core financial engine of the `fin_mgr1` repository
(`ashare/models/return_calculator.py`, `ashare/models/stock_trader.py`,
`ashare/models/financial_report.py`, `ashare/script/backtest_stock_return.py`).

Conventions of the shallow embedding:
* Python `datetime.date` values are modelled as day numbers in `ℤ`
  (only ordering and day differences are ever used by the code).
* Python `Decimal` and `float` values are modelled as `ℚ`.
* Python `None` is modelled with `Option`; the truthiness tests the code
  performs (`if x:`) are made explicit where a field can be `None` or `0`.
* Python's `list.sort`/`sorted` are stable; a stable sort is uniquely
  determined by the key, so they are modelled with `List.insertionSort`
  (which inserts an element in front of the first element it compares
  less-or-equal to, hence is stable in the same sense).
* Code that can raise is modelled with `Except String`.
-/

namespace FinMgr

/-- Source `ashare/models/trade_record.py`, dataclass `TradeRecord`. -/
structure TradeRecord where
  ts_code : String
  trade_date : ℤ
  trade_price : ℚ
  trade_shares : ℚ
  trade_type : String   -- "buy" or "sell"
  trade_amount : ℚ
  commission : ℚ
  tax : ℚ
  deriving DecidableEq, Repr

/-- Source `ashare/models/dividend.py`, dataclass `Dividend`; only the fields read by
the verified operations are carried (`stk_div`, `cash_div_tax`, `record_date`,
`div_listdate`, `imp_ann_date`, `base_share` are never read by them).
Fields the code guards against `None` are `Option`-valued. -/
structure Dividend where
  ts_code : String
  div_proc : String          -- participates only when equal to "实施"
  stk_bo_rate : Option ℚ
  stk_co_rate : Option ℚ
  cash_div : ℚ
  ann_date : Option ℤ
  base_date : Option ℤ
  pay_date : Option ℤ
  ex_date : ℤ
  deriving DecidableEq, Repr

/-- Source `ashare/models/daily_quote.py`, dataclass `DailyQuote` (the field `open`
is renamed `open_price`: `open` is reserved in Lean). -/
structure DailyQuote where
  ts_code : String
  trade_date : ℤ
  open_price : ℚ
  high : ℚ
  low : ℚ
  close : ℚ
  pre_close : ℚ
  change : ℚ
  pct_chg : ℚ
  vol : ℚ
  amount : ℚ
  deriving DecidableEq, Repr

/-- Source `ashare/models/daily_indicator.py`, dataclass `DailyIndicator`; `pe` is
`Option`-valued because `_check_pe_percentile` tests its truthiness. -/
structure DailyIndicator where
  ts_code : String
  trade_date : ℤ
  close : ℚ
  pe : Option ℚ
  pe_ttm : Option ℚ
  pb : Option ℚ
  total_share : ℚ
  float_share : ℚ
  free_share : ℚ
  total_mv : ℚ
  circ_mv : ℚ
  deriving DecidableEq, Repr

/-- Python truthiness of an optional numeric value: `None` and `0` are falsy. -/
def optTruthy (o : Option ℚ) : Bool :=
  match o with
  | none => false
  | some v => decide (v ≠ 0)

/-- An entry of the event list built inside
`ReturnCalculator.calculate_position_shares`: the Python code builds tuples
`('trade', trade.trade_date, trade)` and `('dividend', div.base_date, div)`. -/
inductive EventPayload where
  | trade (t : TradeRecord)
  | dividend (d : Dividend)
  deriving DecidableEq, Repr

/-- One merged replay event (tag, date, record). -/
structure Event where
  date : ℤ
  payload : EventPayload
  deriving DecidableEq, Repr

/-- Whether the event carries a trade (tag `'trade'`). -/
def Event.isTrade (e : Event) : Bool :=
  match e.payload with
  | .trade _ => true
  | .dividend _ => false

/-- Position of the event's tag in the merge order: trades were appended to
the Python `events` list before dividends. -/
def Event.tagNum (e : Event) : ℕ :=
  if e.isTrade then 0 else 1

/-- The sort key used by `events.sort(key=lambda x: x[1])`: the event date. -/
def eventDateLe (a b : Event) : Prop := a.date ≤ b.date

instance : DecidableRel eventDateLe := fun a b =>
  inferInstanceAs (Decidable (a.date ≤ b.date))

/-- Sort key of `ReturnCalculator.__init__` for trades. -/
def tradeDateLe (a b : TradeRecord) : Prop := a.trade_date ≤ b.trade_date

instance : DecidableRel tradeDateLe := fun a b =>
  inferInstanceAs (Decidable (a.trade_date ≤ b.trade_date))

/-- Sort key of `ReturnCalculator.__init__` for dividends:
`x.base_date if x.base_date else date.max`, i.e. a missing (or falsy)
base date sorts last. -/
def divKeyLe (a b : Dividend) : Prop :=
  match a.base_date, b.base_date with
  | none, none => True
  | none, some _ => False
  | some _, none => True
  | some x, some y => x ≤ y

instance : DecidableRel divKeyLe := fun a b => by
  unfold divKeyLe
  cases a.base_date <;> cases b.base_date <;> infer_instance

/-- State of a `ReturnCalculator` after `__init__`: trades sorted by trade
date, quotes kept for date lookup, dividends filtered to `div_proc == '实施'`
and sorted by base date. -/
structure ReturnCalculator where
  trades : List TradeRecord
  quotes : List DailyQuote
  dividends : List Dividend
  deriving Repr

/-- Constructor `ReturnCalculator.__init__(trades, quotes, dividends)`. -/
def mkReturnCalculator (trades : List TradeRecord) (quotes : List DailyQuote)
    (dividends : List Dividend) : ReturnCalculator where
  trades := List.insertionSort tradeDateLe trades
  quotes := quotes
  dividends := List.insertionSort divKeyLe
    (dividends.filter (fun d => d.div_proc = "实施"))

/-- The merged event list of `calculate_position_shares`: trades up to
`current_date` (appended first), then executed dividends whose base date is
present and up to `current_date`, stably sorted by event date. -/
def ReturnCalculator.events (rc : ReturnCalculator) (current_date : ℤ) :
    List Event :=
  let tradeEvents := (rc.trades.filter
      (fun t => t.trade_date ≤ current_date)).map
    (fun t => Event.mk t.trade_date (.trade t))
  let divEvents := (rc.dividends.filter
      (fun d => d.base_date.isSome ∧ d.base_date.getD 0 ≤ current_date ∧
        d.div_proc = "实施")).map
    (fun d => Event.mk (d.base_date.getD 0) (.dividend d))
  List.insertionSort eventDateLe (tradeEvents ++ divEvents)

/-- Replay of one dividend event (`送股` then `转增`): each ratio, when set
and nonzero (Python truthiness), multiplies the running share count by
`1 + ratio`, sequentially. -/
def applyDividendEvent (shares : ℚ) (d : Dividend) : ℚ :=
  let s1 := if optTruthy d.stk_bo_rate
    then shares + shares * d.stk_bo_rate.getD 0 else shares
  if optTruthy d.stk_co_rate then s1 + s1 * d.stk_co_rate.getD 0 else s1

/-- Replay of one merged event: buys add shares, sells subtract, dividends
apply the bonus/transfer ratios. -/
def applyEvent (shares : ℚ) (e : Event) : ℚ :=
  match e.payload with
  | .trade t =>
    if t.trade_type = "buy" then shares + t.trade_shares
    else shares - t.trade_shares
  | .dividend d => applyDividendEvent shares d

/-- Operation `ReturnCalculator.calculate_position_shares(current_date)`. -/
def ReturnCalculator.calculate_position_shares (rc : ReturnCalculator)
    (current_date : ℤ) : ℚ :=
  (rc.events current_date).foldl applyEvent 0

/-- Lookup in the date-indexed quote dictionary
`{q.trade_date: q for q in quotes}` (a later quote with the same date
overwrites an earlier one). -/
def quoteLookup (quotes : List DailyQuote) (d : ℤ) : Option DailyQuote :=
  quotes.reverse.find? (fun q => q.trade_date = d)

/-- Operation `ReturnCalculator.get_final_value(end_date)`: `0` for a non-positive
position, otherwise the position marked at the day's close; raises when no
quote exists for exactly that date. -/
def ReturnCalculator.get_final_value (rc : ReturnCalculator) (end_date : ℤ) :
    Except String ℚ :=
  let shares := rc.calculate_position_shares end_date
  if shares ≤ 0 then .ok 0
  else
    match quoteLookup rc.quotes end_date with
    | none => .error "没有找到行情数据"
    | some quote => .ok (shares * quote.close)

/-- One signed dated cash flow; the tag is `some "交易"` for trades,
`some "分红"` for dividends and `none` for the appended terminal value
(the Python code appends a 2-tuple there). -/
structure CashFlow where
  date : ℤ
  amount : ℚ
  tag : Option String
  deriving DecidableEq, Repr

/-- Sort key of `sorted(cash_flows, key=lambda x: x[0])`. -/
def cashFlowDateLe (a b : CashFlow) : Prop := a.date ≤ b.date

instance : DecidableRel cashFlowDateLe := fun a b =>
  inferInstanceAs (Decidable (a.date ≤ b.date))

/-- Operation `ReturnCalculator.get_cash_flows(end_date)`: trade flows (buys negative,
sells positive, fees signed against the holder), then dividend flows
(position at the base date times the per-share cash dividend, dated at the
pay date, falling back to the ex date), stably sorted by date. -/
def ReturnCalculator.get_cash_flows (rc : ReturnCalculator) (end_date : ℤ) :
    List CashFlow :=
  let tradeFlows := rc.trades.filterMap (fun t =>
    if t.trade_date > end_date then none
    else if t.trade_type = "buy" then
      some (CashFlow.mk t.trade_date
        (-(t.trade_amount + t.commission + t.tax)) (some "交易"))
    else
      some (CashFlow.mk t.trade_date
        (t.trade_amount - t.commission - t.tax) (some "交易")))
  let divFlows := rc.dividends.filterMap (fun d =>
    match d.base_date with
    | none => none
    | some bd =>
      if bd > end_date then none
      else
        let shares := rc.calculate_position_shares bd
        if shares > 0 then
          some (CashFlow.mk (d.pay_date.getD d.ex_date)
            (shares * d.cash_div) (some "分红"))
        else none)
  List.insertionSort cashFlowDateLe (tradeFlows ++ divFlows)

/-- Operation `ReturnCalculator.calculate_net_cash_flow_value(end_date)`:
`Decimal(sum(cf[1] for cf in cash_flows))`, a left fold starting at `0`. -/
def ReturnCalculator.calculate_net_cash_flow_value (rc : ReturnCalculator)
    (end_date : ℤ) : ℚ :=
  (rc.get_cash_flows end_date).foldl (fun acc cf => acc + cf.amount) 0

/-- Operation `ReturnCalculator._get_cash_flows_with_final_value(end_date)`: the cash
flows with the terminal mark-to-market value appended when positive, stably
re-sorted by date. -/
def ReturnCalculator.get_cash_flows_with_final_value (rc : ReturnCalculator)
    (end_date : ℤ) : Except String (List CashFlow) := do
  let cash_flows := rc.get_cash_flows end_date
  let final_value ← rc.get_final_value end_date
  let cash_flows := if final_value > 0
    then cash_flows ++ [CashFlow.mk end_date final_value none]
    else cash_flows
  pure (List.insertionSort cashFlowDateLe cash_flows)

/-! ### The annualized-rate solver (`ReturnCalculator._xirr`)

`_xirr` evaluates the net present value and its analytic derivative in
floating point and hands them to `scipy.optimize.newton` (seed `0.1`,
`maxiter=1000`, `tol=1.48e-8`, `rtol=0.0`, `disp=True`), returning `0` on
any exception via a bare `except`.  Floating-point exponentiation with the
fractional exponents `(dᵢ - d₀)/365` is irrational in general, so the power
function is a parameter `pw` of the embedding; every property proved below
holds for an arbitrary `pw` (constrained only by `pw x 0 = 1`, the float
identity `x ** 0.0 == 1.0`, where the claim needs it). -/

/-- Absolute and relative tolerance of the `scipy.optimize.newton` call:
`tol=1.48e-08`. -/
def xirrTol : ℚ := 148 / 10 ^ 10

/-- The Newton-Raphson loop of `scipy.optimize.newton` with an analytic
first derivative and `disp=True`: per iteration it returns the current
point when the residual is exactly `0`, raises `Derivative was zero` when
the derivative vanishes, otherwise steps and returns when the step is
within tolerance (`np.isclose` with `rtol=0.0`); exhausting `maxiter`
iterations raises `Failed to converge`. -/
def newtonRaphson (f fp : ℚ → ℚ) (tol : ℚ) : ℕ → ℚ → Except String ℚ
  | 0, _ => .error "Failed to converge"
  | fuel + 1, p0 =>
    let fval := f p0
    if fval = 0 then .ok p0
    else
      let fder := fp p0
      if fder = 0 then .error "Derivative was zero"
      else
        let p := p0 - fval / fder
        if |p - p0| ≤ tol then .ok p
        else newtonRaphson f fp tol fuel p

/-- The year fractions `(cf[0] - cash_flows[0][0]).days / 365.0` paired with
the amounts, for a dated cash-flow list. -/
def xirrTerms (cash_flows : List (ℤ × ℚ)) : List (ℚ × ℚ) :=
  match cash_flows with
  | [] => []
  | cf0 :: _ => cash_flows.map (fun cf => (((cf.1 - cf0.1 : ℤ) : ℚ) / 365, cf.2))

/-- Function `xnpv(rate) = np.sum(amounts / (1 + rate) ** dates)`, with `pw`
standing for floating-point `**`. -/
def xnpv (pw : ℚ → ℚ → ℚ) (cash_flows : List (ℤ × ℚ)) (rate : ℚ) : ℚ :=
  ((xirrTerms cash_flows).map (fun term => term.2 / pw (1 + rate) term.1)).sum

/-- Function `xnpv_deriv(rate) = np.sum(-dates * amounts / (1 + rate) ** (dates + 1))`. -/
def xnpvDeriv (pw : ℚ → ℚ → ℚ) (cash_flows : List (ℤ × ℚ)) (rate : ℚ) : ℚ :=
  ((xirrTerms cash_flows).map
    (fun term => -term.1 * term.2 / pw (1 + rate) (term.1 + 1))).sum

/-- Operation `ReturnCalculator._xirr(cash_flows)`: `0` for an empty list, otherwise
the Newton solve seeded at `0.1`; the bare `except:` maps every solver
failure to `0`. -/
def xirr (pw : ℚ → ℚ → ℚ) (cash_flows : List (ℤ × ℚ)) : ℚ :=
  if cash_flows = [] then 0
  else
    match newtonRaphson (xnpv pw cash_flows) (xnpvDeriv pw cash_flows)
        xirrTol 1000 (1 / 10) with
    | .ok rate => rate
    | .error _ => 0

/-- A concrete stand-in for floating-point `**` used to instantiate closed
evaluations: exact on integer exponents (the only exponents those
evaluations reach), and satisfying `ratPow x 0 = 1`. -/
def ratPow (b e : ℚ) : ℚ :=
  if e.den = 1 then b ^ e.num else 0

/-! ### Financial reports (`ashare/models/financial_report.py`)

The statement dataclasses hold hundreds of named numeric fields addressed
through a Chinese-name-to-field table; only the fields the verified
operations read are carried here, under their mapped field names. -/

/-- Dataclass `IncomeStatement`; `n_income_attr_p` is `净利润(不含少数股东损益)`. -/
structure IncomeStatement where
  n_income_attr_p : Option ℚ
  deriving DecidableEq, Repr

/-- Dataclass `CashFlowStatement`; `n_cashflow_act` is `经营活动产生的现金流量净额` and
`finan_exp` is `财务费用`. -/
structure CashFlowStatement where
  n_cashflow_act : Option ℚ
  finan_exp : Option ℚ
  deriving DecidableEq, Repr

/-- Dataclass `BalanceSheet`; the two fields are `股东权益合计(不含少数股东权益)` and
`股东权益合计(含少数股东权益)`. -/
structure BalanceSheet where
  total_hldr_eqy_exc_min_int : Option ℚ
  total_hldr_eqy_inc_min_int : Option ℚ
  deriving DecidableEq, Repr

/-- Dataclass `FinancialIndicators`; `roe` is `净资产收益率` and `daa` is `折旧与摊销`. -/
structure FinancialIndicators where
  roe : Option ℚ
  daa : Option ℚ
  deriving DecidableEq, Repr

/-- Dataclass `FinancialReport`: one reporting period.  The three statements the
`StockTrader` constructor filters on are `Option`-valued; the code accesses
`balance_sheet` without a `None` check, so it is carried plain. -/
structure FinancialReport where
  ts_code : String
  report_date : ℤ
  ann_date : ℤ
  report_type : String
  end_type : String          -- "4" marks an annual report
  income_statement : Option IncomeStatement
  balance_sheet : BalanceSheet
  cash_flow_statement : Option CashFlowStatement
  financial_indicators : Option FinancialIndicators
  deriving DecidableEq, Repr

/-- Operation `FinancialReport.calculate_fcff()`:
`(operating_cash_flow - daa - financial_cost) * rate`, where `daa` and
`financial_cost` default to `0` when absent and `rate` (the
minority-interest equity share) defaults to `1` when either equity total is
absent; `None` when the cash-flow statement, the indicators, or the
operating cash flow item is absent. -/
def FinancialReport.calculate_fcff (r : FinancialReport) : Option ℚ :=
  match r.cash_flow_statement, r.financial_indicators with
  | some cfs, some fi =>
    match cfs.n_cashflow_act with
    | none => none
    | some operating_cash_flow =>
      let daa := fi.daa.getD 0
      let financial_cost := cfs.finan_exp.getD 0
      let rate :=
        match r.balance_sheet.total_hldr_eqy_exc_min_int,
            r.balance_sheet.total_hldr_eqy_inc_min_int with
        | some exc, some inc => exc / inc
        | _, _ => 1
      some ((operating_cash_flow - daa - financial_cost) * rate)
  | _, _ => none

/-! ### The decision engine (`ashare/models/stock_trader.py`) -/

/-- Enum `TradeAction`. -/
inductive TradeAction where
  | BUY
  | SELL
  | HOLD
  deriving DecidableEq, Repr

/-- Class `TradeActionResult`: the action plus the two debug strings. -/
structure TradeActionResult where
  action : TradeAction
  roe_debug_info : String
  dcf_ratio_debug_info : String
  deriving DecidableEq, Repr

/-- Descending sort key of `StockTrader.__init__` for daily indicators. -/
def indicatorDateGe (a b : DailyIndicator) : Prop :=
  b.trade_date ≤ a.trade_date

instance : DecidableRel indicatorDateGe := fun a b =>
  inferInstanceAs (Decidable (b.trade_date ≤ a.trade_date))

/-- Descending sort key of `StockTrader.__init__` for daily quotes. -/
def quoteDateGe (a b : DailyQuote) : Prop := b.trade_date ≤ a.trade_date

instance : DecidableRel quoteDateGe := fun a b =>
  inferInstanceAs (Decidable (b.trade_date ≤ a.trade_date))

/-- Descending sort key of `StockTrader.__init__` for financial reports. -/
def reportDateGe (a b : FinancialReport) : Prop :=
  b.report_date ≤ a.report_date

instance : DecidableRel reportDateGe := fun a b =>
  inferInstanceAs (Decidable (b.report_date ≤ a.report_date))

namespace StockTrader

/-- Field `self.daily_indicators` after `__init__`: dated on/before the target
date, most recent first (Python's `reverse=True` sort is stable). -/
def filtered_indicators (daily_indicators : List DailyIndicator)
    (target_date : ℤ) : List DailyIndicator :=
  List.insertionSort indicatorDateGe
    (daily_indicators.filter (fun ind => ind.trade_date ≤ target_date))

/-- Field `self.daily_quotes` after `__init__`. -/
def filtered_quotes (daily_quotes : List DailyQuote) (target_date : ℤ) :
    List DailyQuote :=
  List.insertionSort quoteDateGe
    (daily_quotes.filter (fun q => q.trade_date ≤ target_date))

/-- Field `self.financial_reports` after `__init__`: reports dated on/before the
target date, announced strictly before it (reporting lag), annual
(`end_type == "4"`), with indicators, income statement and cash-flow
statement all present; most recent first. -/
def filtered_reports (financial_reports : List FinancialReport)
    (target_date : ℤ) : List FinancialReport :=
  List.insertionSort reportDateGe
    (financial_reports.filter (fun r =>
      r.report_date ≤ target_date ∧ r.ann_date < target_date ∧
      r.end_type = "4" ∧ r.financial_indicators.isSome ∧
      r.income_statement.isSome ∧ r.cash_flow_statement.isSome))

/-- Operation `StockTrader._check_roe_condition()`: the five most recent annual
reports must all report a truthy ROE of at least `15.0`; the second
component is `self.roe_debug_info`.  (Accessing a report whose
`financial_indicators` is `None` would raise in the source; behind the
constructor filter that cannot happen, and the embedding renders it as a
failed check.) -/
def check_roe_condition (financial_reports : List FinancialReport) :
    Bool × String :=
  let annual_reports :=
    (financial_reports.filter (fun r => r.end_type = "4")).take 5
  if annual_reports.length < 5 then (false, "财报数据不满5年")
  else
    let roe_condition := annual_reports.all (fun r =>
      match r.financial_indicators with
      | none => false
      | some fi =>
        match fi.roe with
        | none => false
        | some roe => decide (roe ≠ 0) && decide (roe ≥ 15))
    if roe_condition then (true, "满足最近五年ROE>=20%")
    else (false, "不满足最近五年ROE>=20%")

/-- Operation `StockTrader._check_pe_percentile()`: the fraction of strictly positive
PE values from the last five years (1825 days) that are at most the most
recent PE; `1.0` whenever the inputs are missing (no indicators, no
positive historical PE, or a falsy current PE). -/
def check_pe_percentile (daily_indicators : List DailyIndicator)
    (target_date : ℤ) : ℚ :=
  match daily_indicators with
  | [] => 1
  | ind0 :: _ =>
    let five_years_ago := target_date - 5 * 365
    -- `ind.trade_date >= five_years_ago and ind.pe and ind.pe > 0`:
    -- truthiness of `pe` is subsumed by `pe > 0`.
    let historical_pe := daily_indicators.filterMap (fun ind =>
      match ind.pe with
      | none => none
      | some pe =>
        if ind.trade_date ≥ five_years_ago ∧ pe > 0 then some pe else none)
    if historical_pe = [] then 1
    else
      match ind0.pe with
      | none => 1
      | some current_pe =>
        if current_pe = 0 then 1
        else
          ((historical_pe.filter (fun pe => pe ≤ current_pe)).length : ℚ) /
            (historical_pe.length : ℚ)

/-- The period-over-period growth rates of `_calculate_growth_rate`: for
each adjacent pair of the most-recent-first FCFF history with a positive
older value, `fcff_i / fcff_{i+1} - 1`. -/
def growth_rates_of (historical_fcff : List ℚ) : List ℚ :=
  (historical_fcff.zip historical_fcff.tail).filterMap (fun pair =>
    if pair.2 > 0 then some (pair.1 / pair.2 - 1) else none)

/-- Mean of the growth rates (meaningful only when the list is nonempty). -/
def growth_rates_mean (historical_fcff : List ℚ) : ℚ :=
  (growth_rates_of historical_fcff).sum /
    ((growth_rates_of historical_fcff).length : ℚ)

/-- Population variance of the growth rates; the source compares
`abs(x - mean) <= 2 * std` with `std = variance ** 0.5`, which (both sides
being nonnegative) is exactly `(x - mean)² ≤ 4 * variance`, the rational
rendition used here. -/
def growth_rates_variance (historical_fcff : List ℚ) : ℚ :=
  let mean := growth_rates_mean historical_fcff
  ((growth_rates_of historical_fcff).map (fun x => (x - mean) ^ 2)).sum /
    ((growth_rates_of historical_fcff).length : ℚ)

/-- The rates surviving the two-standard-deviation outlier filter. -/
def normal_rates_of (historical_fcff : List ℚ) : List ℚ :=
  let mean := growth_rates_mean historical_fcff
  let variance := growth_rates_variance historical_fcff
  (growth_rates_of historical_fcff).filter
    (fun x => (x - mean) ^ 2 ≤ 4 * variance)

/-- Operation `StockTrader._calculate_growth_rate(historical_fcff)`: the mean of the
surviving rates, falling back to the unfiltered mean when all rates are
discarded, and to `0` when no rate can be formed. -/
def calculate_growth_rate (historical_fcff : List ℚ) : ℚ :=
  if growth_rates_of historical_fcff = [] then 0
  else
    let normal_rates := normal_rates_of historical_fcff
    if normal_rates = [] then growth_rates_mean historical_fcff
    else normal_rates.sum / (normal_rates.length : ℚ)

/-- The numeric core of `_calculate_dcf_ratio` after its guards: compound
the latest FCFF at **half** the estimated growth rate over the 3-period
horizon, discount periods 1..2, and discount a terminal value obtained by
dividing the horizon-year FCFF by the risk-free rate. -/
def dcf_total_value (historical_fcff : List ℚ)
    (fcff discount_rate risk_free_rate : ℚ) : ℚ :=
  let growth_rate := calculate_growth_rate historical_fcff / 2
  let present_value := (List.range' 1 2).foldl
    (fun acc i => acc + fcff * (1 + growth_rate) ^ i / (1 + discount_rate) ^ i) 0
  let future_cf := fcff * (1 + growth_rate) ^ 3
  let terminal_value_pv := future_cf / risk_free_rate / (1 + discount_rate) ^ 3
  present_value + terminal_value_pv

/-- Modelled from the spec's §4.4 Step 2 wording and parameterized by the
compounding growth rate `g`: interim periods 1..2 compound at `g` and are
discounted at the discount rate; the terminal period divides the
horizon-year FCFF by the perpetuity (risk-free) rate and discounts it by
the horizon-year discount factor. -/
def spec_projected_value (g fcff discount_rate risk_free_rate : ℚ) : ℚ :=
  fcff * (1 + g) ^ 1 / (1 + discount_rate) ^ 1 +
    fcff * (1 + g) ^ 2 / (1 + discount_rate) ^ 2 +
    fcff * (1 + g) ^ 3 / risk_free_rate / (1 + discount_rate) ^ 3

/-- Operation `StockTrader._calculate_dcf_ratio()` over the constructor-filtered
inputs; the second component is `self.dcf_ratio_debug_info`.  Raises
(`Except.error`) where the source raises: indexing `daily_indicators[0]`
on an empty list, and `float(None)` when the latest report's FCFF is
`None`. -/
def calculate_dcf_ratio (financial_reports : List FinancialReport)
    (daily_indicators : List DailyIndicator) (daily_quotes : List DailyQuote)
    (discount_rate risk_free_rate : ℚ) : Except String (ℚ × String) :=
  match financial_reports, daily_quotes with
  | [], _ => .ok (1, "无财报数据或者无每日指票数据:dcf_ratio=1.0")
  | _ :: _, [] => .ok (1, "无财报数据或者无每日指票数据:dcf_ratio=1.0")
  | latest_report :: _, _ :: _ =>
    match daily_indicators with
    | [] => .error "IndexError: daily_indicators"
    | latest_indicator :: _ =>
      match latest_report.income_statement with
      | none => .ok (1, "无利润表数据:dcf_ratio=1.0")
      | some is =>
        -- `if not latest_report.income_statement.get('净利润(不含少数股东损益)')`
        if is.n_income_attr_p.getD 0 = 0 then
          .ok (1, "无利润表数据项 净利润(不含少数股东损益):dcf_ratio=1.0")
        else
          let historical_fcff := (financial_reports.take 5).map
            (fun r => r.calculate_fcff.getD 0)
          if historical_fcff.length < 2 then
            .ok (1, "无足够的现流金历史数据|dcf_ratio=1.0")
          else
            match latest_report.calculate_fcff with
            | none => .error "TypeError: float(None)"
            | some fcff =>
              let total_value :=
                dcf_total_value historical_fcff fcff discount_rate risk_free_rate
              let current_market_value := latest_indicator.total_mv * 10000
              if total_value ≤ 0 then .ok (1, "")
              else .ok (current_market_value / total_value, "")

/-- Operation `StockTrader.get_action()` for a trader constructed from the raw data
and a target date (`discount_rate` and `risk_free_rate` both default to
`0.05` in the source): BUY when the ROE screen passes and the DCF ratio is
at most `0.5`; otherwise SELL when the ROE screen fails or the DCF ratio is
at least `1.3`; otherwise HOLD.  The PE percentile is computed and then
never consulted. -/
def get_action (daily_indicators : List DailyIndicator)
    (daily_quotes : List DailyQuote) (financial_reports : List FinancialReport)
    (target_date : ℤ) (discount_rate risk_free_rate : ℚ) :
    Except String TradeActionResult :=
  let reports := filtered_reports financial_reports target_date
  let indicators := filtered_indicators daily_indicators target_date
  let quotes := filtered_quotes daily_quotes target_date
  let roe := check_roe_condition reports
  let _pe_percentile := check_pe_percentile indicators target_date
  match calculate_dcf_ratio reports indicators quotes
      discount_rate risk_free_rate with
  | .error e => .error e
  | .ok (dcf_ratio, dcf_debug) =>
    if roe.1 = true ∧ dcf_ratio ≤ 1 / 2 then
      .ok (TradeActionResult.mk .BUY roe.2 dcf_debug)
    else if roe.1 = false ∨ dcf_ratio ≥ 13 / 10 then
      .ok (TradeActionResult.mk .SELL roe.2 dcf_debug)
    else .ok (TradeActionResult.mk .HOLD roe.2 dcf_debug)

end StockTrader

/-! ### The backtest day step (`ashare/script/backtest_stock_return.py`) -/

/-- Truncation toward zero, the semantics of Python's `int(Decimal)`. -/
def pyInt (q : ℚ) : ℤ :=
  if q < 0 then -(⌊-q⌋) else ⌊q⌋

/-- Python `==` between the `TradeActionResult` object returned by
`StockTrader.get_action()` and a `TradeAction` enum member, as written in
`StockBacktester.backtest_stock` (`action == TradeAction.BUY`):
neither class defines cross-type equality, so both operands fall back to
identity comparison, which is `False` for these distinct objects. -/
def tradeActionResultEqAction (_result : TradeActionResult)
    (_action : TradeAction) : Bool :=
  false

/-- The trades appended by one iteration of the `backtest_stock` day loop,
given the day's decision result, the usable price, and yesterday's capital
and position: on (object-compared) BUY, an all-in buy sized to whole
100-share lots of yesterday's capital; on (object-compared) SELL with a
positive position, a sell of the entire position; otherwise nothing. -/
def backtest_day_new_trades (stock_code : String) (current_date : ℤ)
    (price : ℚ) (yesterday_capital yesterday_position : ℚ)
    (action : TradeActionResult) : List TradeRecord :=
  if tradeActionResultEqAction action TradeAction.BUY then
    let shares := pyInt (yesterday_capital / price / 100) * 100
    let cost := price * (shares : ℚ)
    if shares > 0 then
      [TradeRecord.mk stock_code current_date price (shares : ℚ) "buy" cost 0 0]
    else []
  else if tradeActionResultEqAction action TradeAction.SELL ∧
      yesterday_position > 0 then
    [TradeRecord.mk stock_code current_date price yesterday_position "sell"
      (price * yesterday_position) 0 0]
  else []

/-! ### Auxiliary relations and concrete data used by the theorems -/

/-- Strengthened order on merged events: strictly earlier date, or the same
date with the trade tag (`0`) not after the action tag (`1`).  Pairwise
`eventLexLe` says the replay is in ascending date order and an action never
precedes a same-date trade. -/
def eventLexLe (a b : Event) : Prop :=
  a.date < b.date ∨ (a.date = b.date ∧ a.tagNum ≤ b.tagNum)

/-- Tie discipline between two events: on equal dates the first keeps the
not-after tag. -/
def eventTieOk (a b : Event) : Prop :=
  a.date = b.date → a.tagNum ≤ b.tagNum

/-- The BUY gate of `get_action`: ROE screen passed and DCF ratio at most
`0.5`. -/
def buy_condition (roe_qualified : Bool) (dcf_ratio : ℚ) : Prop :=
  roe_qualified = true ∧ dcf_ratio ≤ 1 / 2

/-- The SELL trigger of `get_action` (checked after the BUY gate): ROE
screen failed or DCF ratio at least `1.3`. -/
def sell_condition (roe_qualified : Bool) (dcf_ratio : ℚ) : Prop :=
  roe_qualified = false ∨ dcf_ratio ≥ 13 / 10

/-- Scenario of spec §8: buy 1000 shares at 10.00 on day 0 (commission 5, tax 0). -/
def scenarioBuyTrade : TradeRecord :=
  TradeRecord.mk "000001.SZ" 0 10 1000 "buy" 10000 5 0

/-- Scenario of spec §8: sell 500 shares at 12.00 on day 178 (commission 3, tax 6). -/
def scenarioSellTrade : TradeRecord :=
  TradeRecord.mk "000001.SZ" 178 12 500 "sell" 6000 3 6

/-- Scenario of spec §8: the executed corporate action, effective (base date)
day 100, bonus ratio 0.2, transfer ratio 0.3, cash dividend 0.5 per share,
paid day 105. -/
def scenarioDividend : Dividend :=
  Dividend.mk "000001.SZ" "实施" (some (2 / 10)) (some (3 / 10)) (1 / 2)
    (some 0) (some 100) (some 105) 103

/-- Scenario of spec §8: quote at day 0, close 10.00. -/
def scenarioQuote0 : DailyQuote :=
  DailyQuote.mk "000001.SZ" 0 10 10 10 10 10 0 0 0 0

/-- Scenario of spec §8: quote at day 178, close 12.00. -/
def scenarioQuote178 : DailyQuote :=
  DailyQuote.mk "000001.SZ" 178 12 12 12 12 12 0 0 0 0

/-- Scenario of spec §8: the return calculator over the two trades, the two quotes
and the one executed action. -/
def scenarioRC : ReturnCalculator :=
  mkReturnCalculator [scenarioBuyTrade, scenarioSellTrade]
    [scenarioQuote0, scenarioQuote178] [scenarioDividend]

/-- An FCFF history (most recent first) whose period-over-period growth
rates are exactly `[0.1, 0.1, 0.1, 5.0]`. -/
def c5_fcff_history : List ℚ := [79860, 72600, 66000, 60000, 10000]

/-! ## Theorems -/

theorem eventLexLe_date_le {a b : Event} (h : eventLexLe a b) :
    a.date ≤ b.date := by
  rcases h with h | ⟨h, _⟩
  · exact le_of_lt h
  · exact le_of_eq h

theorem eventTieOk_of_tagNum_zero {a b : Event} (h : a.tagNum = 0) :
    eventTieOk a b := fun _ => h ▸ Nat.zero_le _

theorem eventTieOk_of_tagNum_one {a b : Event} (h : b.tagNum = 1) :
    eventTieOk a b := by
  intro _
  rw [h]
  unfold Event.tagNum
  split <;> omega

theorem orderedInsert_pairwise_lex (a : Event) (l : List Event)
    (hl : l.Pairwise eventLexLe) (ha : ∀ b ∈ l, eventTieOk a b) :
    (List.orderedInsert eventDateLe a l).Pairwise eventLexLe := by
  induction l with
  | nil => simp [List.orderedInsert, List.pairwise_singleton]
  | cons b t ih =>
    rw [List.pairwise_cons] at hl
    by_cases hab : eventDateLe a b
    · rw [List.orderedInsert_of_le _ _ hab]
      refine List.Pairwise.cons ?_ (List.Pairwise.cons hl.1 hl.2)
      intro x hx
      have hdx : a.date ≤ x.date := by
        rcases List.mem_cons.mp hx with rfl | hxt
        · exact hab
        · exact le_trans hab (eventLexLe_date_le (hl.1 x hxt))
      rcases lt_or_eq_of_le hdx with hlt | heq
      · exact Or.inl hlt
      · exact Or.inr ⟨heq, ha x (List.mem_cons.mpr (by
          rcases List.mem_cons.mp hx with rfl | hxt
          · exact Or.inl rfl
          · exact Or.inr hxt)) heq⟩
    · have hba : b.date < a.date := by
        have := hab
        unfold eventDateLe at this
        omega
      show ((b :: t).orderedInsert eventDateLe a).Pairwise eventLexLe
      rw [show (b :: t).orderedInsert eventDateLe a =
        b :: t.orderedInsert eventDateLe a from if_neg hab]
      refine List.Pairwise.cons ?_
        (ih hl.2 (fun x hx => ha x (List.mem_cons_of_mem b hx)))
      intro x hx
      rcases (List.mem_orderedInsert eventDateLe).mp hx with rfl | hxt
      · exact Or.inl hba
      · exact hl.1 x hxt

theorem insertionSort_pairwise_lex (l : List Event)
    (h : l.Pairwise eventTieOk) :
    (List.insertionSort eventDateLe l).Pairwise eventLexLe := by
  induction l with
  | nil => simp [List.insertionSort]
  | cons a t ih =>
    rw [List.pairwise_cons] at h
    show ((List.insertionSort eventDateLe t).orderedInsert eventDateLe
      a).Pairwise eventLexLe
    exact orderedInsert_pairwise_lex a _ (ih h.2)
      (fun b hb => h.1 b ((List.mem_insertionSort eventDateLe).mp hb))

theorem tagNum_of_mem_tradeEvents {rc : ReturnCalculator} {cur : ℤ}
    {e : Event} (he : e ∈ (rc.trades.filter
      (fun t => t.trade_date ≤ cur)).map
      (fun t => Event.mk t.trade_date (.trade t))) :
    e.tagNum = 0 := by
  obtain ⟨t, _, rfl⟩ := List.mem_map.mp he
  rfl

theorem tagNum_of_mem_divEvents {rc : ReturnCalculator} {cur : ℤ}
    {e : Event} (he : e ∈ (rc.dividends.filter
      (fun d => d.base_date.isSome ∧ d.base_date.getD 0 ≤ cur ∧
        d.div_proc = "实施")).map
      (fun d => Event.mk (d.base_date.getD 0) (.dividend d))) :
    e.tagNum = 1 := by
  obtain ⟨d, _, rfl⟩ := List.mem_map.mp he
  rfl

/-- C6.  For every trade history, executed-action history and as-of date,
the merged replay sequence of `calculate_position_shares` is pairwise
ordered by `eventLexLe`: event dates ascend, and on a shared date a
corporate action never precedes a trade — trades are applied first. -/
theorem position_replay_event_order (trades : List TradeRecord)
    (quotes : List DailyQuote) (dividends : List Dividend)
    (current_date : ℤ) :
    ((mkReturnCalculator trades quotes dividends).events
      current_date).Pairwise eventLexLe := by
  unfold ReturnCalculator.events
  apply insertionSort_pairwise_lex
  apply List.pairwise_append.mpr
  refine ⟨?_, ?_, ?_⟩
  · exact List.pairwise_of_forall_mem_list
      (fun a ha _ _ => eventTieOk_of_tagNum_zero (tagNum_of_mem_tradeEvents ha))
  · exact List.pairwise_of_forall_mem_list
      (fun _ _ b hb => eventTieOk_of_tagNum_one (tagNum_of_mem_divEvents hb))
  · exact fun a _ b hb => eventTieOk_of_tagNum_one (tagNum_of_mem_divEvents hb)

/-- C9.  A replayed corporate action carrying both a stock-bonus ratio and
a transfer ratio multiplies the running share count first by `1 + bonus`,
then by `1 + transfer`, with no flooring or rounding. -/
theorem corporate_action_sequential_multiplication (shares bo co : ℚ)
    (d : Dividend) (hbo : d.stk_bo_rate = some bo)
    (hco : d.stk_co_rate = some co) :
    applyDividendEvent shares d = shares * (1 + bo) * (1 + co) := by
  unfold applyDividendEvent optTruthy
  rw [hbo, hco]
  by_cases h1 : bo = 0 <;> by_cases h2 : co = 0 <;>
    simp [h1, h2, Option.getD] <;> ring

/-- Witness for C9: 1000 shares through the §8 action (`0.2` bonus, `0.3`
transfer) become exactly `1000 × 1.2 × 1.3 = 1560` shares. -/
theorem corporate_action_sequential_multiplication_witness :
    applyDividendEvent 1000 scenarioDividend = 1000 * (1 + 2 / 10) * (1 + 3 / 10) ∧
    (1000 * (1 + 2 / 10) * (1 + 3 / 10) : ℚ) = 1560 :=
  ⟨corporate_action_sequential_multiplication 1000 (2 / 10) (3 / 10)
    scenarioDividend rfl rfl, by norm_num⟩

/-- C1.  As written, the backtest day loop appends no trade for any
decision result, price or portfolio state: `get_action()` returns a
`TradeActionResult` object which the loop compares against `TradeAction`
enum members, and that comparison is identically false. -/
theorem backtest_day_appends_no_trade (stock_code : String)
    (current_date : ℤ) (price yesterday_capital yesterday_position : ℚ)
    (action : TradeActionResult) :
    backtest_day_new_trades stock_code current_date price yesterday_capital
      yesterday_position action = [] := by
  unfold backtest_day_new_trades tradeActionResultEqAction
  simp

theorem foldl_add_amount (l : List CashFlow) (init : ℚ) :
    l.foldl (fun acc cf => acc + cf.amount) init =
      init + (l.map CashFlow.amount).sum := by
  induction l generalizing init with
  | nil => simp
  | cons c t ih => simp [List.foldl_cons, ih, add_assoc]

/-- C10.  The net-cash-flow operation is the aggregation homomorphism of
`get_cash_flows`: it returns exactly the sum of the signed amounts of the
events that `get_cash_flows` produces for the same end date (in particular
it contains no terminal-value term). -/
theorem net_cash_flow_is_sum_of_cash_flows (trades : List TradeRecord)
    (quotes : List DailyQuote) (dividends : List Dividend) (end_date : ℤ) :
    (mkReturnCalculator trades quotes dividends).calculate_net_cash_flow_value
        end_date =
      (((mkReturnCalculator trades quotes dividends).get_cash_flows
        end_date).map CashFlow.amount).sum := by
  unfold ReturnCalculator.calculate_net_cash_flow_value
  rw [foldl_add_amount, zero_add]

/-- C8 counterexample.  With no trades and no quotes, no quote exists for
day 0, yet `get_final_value` returns `0` instead of failing: the claimed
"fails whenever no quote exists for exactly that date" is false — the
missing-quote error is only reached when the position is positive. -/
theorem final_value_no_quote_counterexample :
    quoteLookup ([] : List DailyQuote) 0 = none ∧
    (mkReturnCalculator [] [] []).get_final_value 0 = .ok 0 :=
  ⟨rfl, rfl⟩

/-- C8 amended.  Whenever the position at the as-of date is positive, the
final mark-to-market fails with the missing-quote error exactly when no
quote exists for that date, and otherwise returns the position times that
quote's close; a non-positive position short-circuits to `0` without any
quote lookup. -/
theorem final_value_positive_position_spec (trades : List TradeRecord)
    (quotes : List DailyQuote) (dividends : List Dividend) (end_date : ℤ)
    (hpos : 0 < (mkReturnCalculator trades quotes
      dividends).calculate_position_shares end_date) :
    (mkReturnCalculator trades quotes dividends).get_final_value end_date =
      match quoteLookup quotes end_date with
      | none => .error "没有找到行情数据"
      | some quote => .ok ((mkReturnCalculator trades quotes
          dividends).calculate_position_shares end_date * quote.close) := by
  unfold ReturnCalculator.get_final_value
  rw [if_neg (not_le.mpr hpos)]
  rfl

/-- Witness for C8: in the §8 scenario at day 0 the position is 1000 > 0, a
quote with close 10.00 exists, and the final value is `ok 10000`. -/
theorem final_value_positive_position_spec_witness :
    0 < scenarioRC.calculate_position_shares 0 ∧
    scenarioRC.get_final_value 0 = .ok 10000 := by
  have hpos : 0 < scenarioRC.calculate_position_shares 0 := by
    simp only [scenarioRC, mkReturnCalculator, scenarioBuyTrade,
      scenarioSellTrade, scenarioDividend, scenarioQuote0, scenarioQuote178,
      ReturnCalculator.calculate_position_shares, ReturnCalculator.events,
      applyEvent, applyDividendEvent, optTruthy, tradeDateLe, divKeyLe,
      eventDateLe, List.insertionSort, List.orderedInsert, List.foldl,
      List.filter, List.map]
    norm_num [applyEvent, applyDividendEvent, optTruthy]
  refine ⟨hpos, ?_⟩
  refine (final_value_positive_position_spec [scenarioBuyTrade,
    scenarioSellTrade] [scenarioQuote0, scenarioQuote178] [scenarioDividend]
    0 hpos).trans ?_
  simp only [scenarioRC, mkReturnCalculator, scenarioBuyTrade,
    scenarioSellTrade, scenarioDividend, scenarioQuote0, scenarioQuote178,
    ReturnCalculator.calculate_position_shares, ReturnCalculator.events,
    applyEvent, applyDividendEvent, optTruthy, quoteLookup, tradeDateLe,
    divKeyLe, eventDateLe, List.insertionSort, List.orderedInsert,
    List.foldl, List.filter, List.map, List.reverse, List.reverseAux,
    List.find?]
  norm_num [applyEvent, applyDividendEvent, optTruthy]

/-- C2 (code bug).  Evaluating the §8 scenario: the position at the
action's effective day 100 is already 1560 (the action applies on its base
date, inclusively), so the dividend cash flow is `1560 × 0.5 = 780`, not
the `1000 × 0.5 = 500` the claim (and the repository's own
`test_get_cash_flows` / `test_calculate_position_shares`) expects; the
remaining three events and the ascending order match the claim. -/
theorem cash_flows_scenario_evaluation :
    scenarioRC.calculate_position_shares 99 = 1000 ∧
    scenarioRC.calculate_position_shares 100 = 1560 ∧
    scenarioRC.calculate_position_shares 178 = 1060 ∧
    scenarioRC.get_cash_flows_with_final_value 178 = .ok
      [CashFlow.mk 0 (-10005) (some "交易"),
       CashFlow.mk 105 780 (some "分红"),
       CashFlow.mk 178 5991 (some "交易"),
       CashFlow.mk 178 12720 none] ∧
    (780 : ℚ) ≠ 1000 * (1 / 2) := by
  refine ⟨?_, ?_, ?_, ?_, by norm_num⟩ <;>
    · simp only [scenarioRC, mkReturnCalculator, scenarioBuyTrade,
        scenarioSellTrade, scenarioDividend, scenarioQuote0, scenarioQuote178,
        ReturnCalculator.get_cash_flows_with_final_value,
        ReturnCalculator.get_cash_flows, ReturnCalculator.get_final_value,
        ReturnCalculator.calculate_position_shares, ReturnCalculator.events,
        applyEvent, applyDividendEvent, optTruthy, quoteLookup, tradeDateLe,
        divKeyLe, eventDateLe, cashFlowDateLe, List.insertionSort,
        List.orderedInsert, List.foldl, List.reverse, List.reverseAux,
        List.find?, List.filterMap, List.filter, List.map, bind, Except.bind,
        pure, (by decide : ¬("sell" : String) = "buy")]
      norm_num [applyEvent, applyDividendEvent, optTruthy, cashFlowDateLe,
        List.insertionSort, List.orderedInsert, Except.pure]

/-- C5 counterexample.  On the history whose growth rates are
`[0.1, 0.1, 0.1, 5.0]`, `_calculate_growth_rate` returns the unfiltered
mean `1.325`, not a value within `0.05` of `0.1`: the 5.0 outlier is not
excluded. -/
theorem growth_rate_outlier_counterexample :
    StockTrader.calculate_growth_rate c5_fcff_history = 53 / 40 ∧
    ¬|StockTrader.calculate_growth_rate c5_fcff_history - 1 / 10| ≤ 1 / 20 := by
  have h : StockTrader.calculate_growth_rate c5_fcff_history = 53 / 40 := by
    simp only [StockTrader.calculate_growth_rate, StockTrader.normal_rates_of,
      StockTrader.growth_rates_mean, StockTrader.growth_rates_variance,
      StockTrader.growth_rates_of, c5_fcff_history, List.zip, List.zipWith,
      List.tail, List.filterMap, List.filter]
    norm_num
    all_goals decide
  refine ⟨h, ?_⟩
  rw [h]
  rw [abs_le]
  norm_num

/-- C5 amended.  On rates `[0.1, 0.1, 0.1, 5.0]` the two-standard-deviation
filter retains all four rates (in a 4-sample no value can deviate from the
mean by more than 1.5 population standard deviations), so the estimate is
the unfiltered mean `53/40 = 1.325`. -/
theorem growth_rate_two_sigma_keeps_all_four :
    StockTrader.growth_rates_of c5_fcff_history = [1 / 10, 1 / 10, 1 / 10, 5] ∧
    StockTrader.normal_rates_of c5_fcff_history =
      StockTrader.growth_rates_of c5_fcff_history ∧
    StockTrader.calculate_growth_rate c5_fcff_history =
      StockTrader.growth_rates_mean c5_fcff_history ∧
    StockTrader.growth_rates_mean c5_fcff_history = 53 / 40 := by
  refine ⟨?_, ?_, ?_, ?_⟩ <;>
    · simp only [StockTrader.calculate_growth_rate, StockTrader.normal_rates_of,
        StockTrader.growth_rates_mean, StockTrader.growth_rates_variance,
        StockTrader.growth_rates_of, c5_fcff_history, List.zip, List.zipWith,
        List.tail, List.filterMap, List.filter]
      norm_num
      all_goals decide

/-- C3 counterexample.  For the history `[2, 1]` (estimated growth rate
`1.0`) with FCFF `1`, discount rate `0`, risk-free rate `1`, the value the
code computes (`57/8`, compounding at the halved rate `0.5`) differs from
the spec's projection at the Step 1 estimate itself (`14`). -/
theorem dcf_growth_rate_counterexample :
    StockTrader.dcf_total_value [2, 1] 1 0 1 ≠
      StockTrader.spec_projected_value
        (StockTrader.calculate_growth_rate [2, 1]) 1 0 1 := by
  have h : StockTrader.calculate_growth_rate [2, 1] = 1 := by
    simp only [StockTrader.calculate_growth_rate, StockTrader.normal_rates_of,
      StockTrader.growth_rates_mean, StockTrader.growth_rates_variance,
      StockTrader.growth_rates_of, List.zip, List.zipWith, List.tail,
      List.filterMap, List.filter]
    norm_num
  rw [h]
  unfold StockTrader.dcf_total_value StockTrader.spec_projected_value
  rw [h, show List.range' 1 2 = [1, 2] from rfl]
  simp only [List.foldl_cons, List.foldl_nil]
  norm_num

/-- C3 amended.  For every FCFF history with at least 2 values, the
code's 3-period projection compounds at **half** the Step 1 growth-rate
estimate: `dcf_total_value` equals the spec's projection formula evaluated
at `calculate_growth_rate / 2`. -/
theorem dcf_compounds_at_half_growth_rate (historical_fcff : List ℚ)
    (fcff discount_rate risk_free_rate : ℚ)
    (_hlen : 2 ≤ historical_fcff.length) :
    StockTrader.dcf_total_value historical_fcff fcff discount_rate
        risk_free_rate =
      StockTrader.spec_projected_value
        (StockTrader.calculate_growth_rate historical_fcff / 2) fcff
        discount_rate risk_free_rate := by
  unfold StockTrader.dcf_total_value StockTrader.spec_projected_value
  rw [show List.range' 1 2 = [1, 2] from rfl]
  simp only [List.foldl_cons, List.foldl_nil]
  ring

/-- Witness for C3's amended statement at the history `[2, 1]`. -/
theorem dcf_compounds_at_half_growth_rate_witness :
    2 ≤ ([2, 1] : List ℚ).length ∧
    StockTrader.dcf_total_value [2, 1] 1 0 1 =
      StockTrader.spec_projected_value
        (StockTrader.calculate_growth_rate [2, 1] / 2) 1 0 1 :=
  ⟨by decide, dcf_compounds_at_half_growth_rate [2, 1] 1 0 1 (by decide)⟩

theorem newtonRaphson_succ (f fp : ℚ → ℚ) (tol : ℚ) (fuel : ℕ) (p0 : ℚ) :
    newtonRaphson f fp tol (fuel + 1) p0 =
      if f p0 = 0 then .ok p0
      else if fp p0 = 0 then .error "Derivative was zero"
      else if |p0 - f p0 / fp p0 - p0| ≤ tol then .ok (p0 - f p0 / fp p0)
      else newtonRaphson f fp tol fuel (p0 - f p0 / fp p0) := rfl

/-- C7 counterexample.  A single-event cash-flow sequence whose amount is
exactly `0` does not return `0`: Newton's residual at the seed is already
zero, so the solver returns the seed and `_xirr` yields `0.1`. -/
theorem xirr_single_zero_flow_counterexample :
    xirr ratPow [((0 : ℤ), (0 : ℚ))] = 1 / 10 ∧ (1 : ℚ) / 10 ≠ 0 := by
  constructor
  · have hfval : xnpv ratPow [((0 : ℤ), (0 : ℚ))] (1 / 10) = 0 := by
      simp [xnpv, xirrTerms]
    unfold xirr
    rw [if_neg (by simp), show (1000 : ℕ) = 999 + 1 from rfl,
      newtonRaphson_succ, hfval, if_pos rfl]
  · norm_num

/-- C7 amended.  The solver recovers every failure as `0`: an empty
sequence returns `0` without solving; whenever the Newton loop reports any
error (zero derivative or an exhausted iteration budget), the result is
`0`; and a single-event sequence with a **nonzero** amount returns `0`
(its net-present-value function is the constant amount, so the analytic
derivative is identically zero and the solver errors out).  A single
zero-amount flow instead returns the seed `0.1`. -/
theorem xirr_failure_and_degenerate_flows (pw : ℚ → ℚ → ℚ)
    (cash_flows : List (ℤ × ℚ)) (d : ℤ) (a : ℚ) :
    xirr pw [] = 0 ∧
    (∀ e, newtonRaphson (xnpv pw cash_flows) (xnpvDeriv pw cash_flows)
      xirrTol 1000 (1 / 10) = .error e → xirr pw cash_flows = 0) ∧
    (pw (1 + 1 / 10) 0 = 1 → a ≠ 0 → xirr pw [(d, a)] = 0) := by
  refine ⟨rfl, ?_, ?_⟩
  · intro e he
    unfold xirr
    by_cases hcf : cash_flows = []
    · simp [hcf]
    · rw [if_neg hcf, he]
  · intro hpw ha
    have hterms : xirrTerms [(d, a)] = [(0, a)] := by
      simp [xirrTerms]
    have hfval : xnpv pw [(d, a)] (1 / 10) = a := by
      simp only [xnpv, hterms, List.map_cons, List.map_nil, List.sum_cons,
        List.sum_nil, add_zero, hpw, div_one]
    have hder : xnpvDeriv pw [(d, a)] (1 / 10) = 0 := by
      simp only [xnpvDeriv, hterms, List.map_cons, List.map_nil,
        List.sum_cons, List.sum_nil, add_zero, neg_zero, zero_mul, zero_div]
    unfold xirr
    rw [if_neg (by simp), show (1000 : ℕ) = 999 + 1 from rfl,
      newtonRaphson_succ, hfval, hder, if_neg ha, if_pos rfl]

/-- Witness for C7: the flow list `[(0, 1)]` makes the Newton loop fail
with the zero-derivative error and `_xirr` return `0`; the flow `[(5, 1)]`
exercises the single-nonzero-event clause directly. -/
theorem xirr_failure_and_degenerate_flows_witness :
    newtonRaphson (xnpv ratPow [((0 : ℤ), (1 : ℚ))])
        (xnpvDeriv ratPow [((0 : ℤ), (1 : ℚ))]) xirrTol 1000 (1 / 10) =
      .error "Derivative was zero" ∧
    xirr ratPow [((0 : ℤ), (1 : ℚ))] = 0 ∧
    ratPow (1 + 1 / 10) 0 = 1 ∧ (1 : ℚ) ≠ 0 ∧
    xirr ratPow [((5 : ℤ), (1 : ℚ))] = 0 := by
  have hpw : ratPow (1 + 1 / 10) 0 = 1 := by
    unfold ratPow
    norm_num
  have hterms : xirrTerms [((0 : ℤ), (1 : ℚ))] = [(0, 1)] := by
    simp [xirrTerms]
  have hfval : xnpv ratPow [((0 : ℤ), (1 : ℚ))] (1 / 10) = 1 := by
    simp only [xnpv, hterms, List.map_cons, List.map_nil, List.sum_cons,
      List.sum_nil, add_zero, hpw, div_one]
  have hder : xnpvDeriv ratPow [((0 : ℤ), (1 : ℚ))] (1 / 10) = 0 := by
    simp only [xnpvDeriv, hterms, List.map_cons, List.map_nil, List.sum_cons,
      List.sum_nil, add_zero, neg_zero, zero_mul, zero_div]
  have h1 : newtonRaphson (xnpv ratPow [((0 : ℤ), (1 : ℚ))])
      (xnpvDeriv ratPow [((0 : ℤ), (1 : ℚ))]) xirrTol 1000 (1 / 10) =
      .error "Derivative was zero" := by
    rw [show (1000 : ℕ) = 999 + 1 from rfl, newtonRaphson_succ, hfval, hder,
      if_neg one_ne_zero, if_pos rfl]
  exact ⟨h1,
    (xirr_failure_and_degenerate_flows ratPow [((0 : ℤ), (1 : ℚ))] 0 1).2.1
      "Derivative was zero" h1,
    hpw, one_ne_zero,
    (xirr_failure_and_degenerate_flows ratPow [] 5 1).2.2 hpw one_ne_zero⟩

/-- C4.  The decision rule of `get_action`: whenever the trader returns a
result (no exception inside the DCF path), the action is BUY exactly when
the ROE screen passed and the DCF ratio is at most `0.5`; SELL exactly
when BUY did not fire and (the ROE screen failed or the ratio is at least
`1.3`); HOLD otherwise.  The PE percentile, though computed, never enters:
the action is a function of the ROE flag and the DCF ratio alone. -/
theorem get_action_decision_rule (daily_indicators : List DailyIndicator)
    (daily_quotes : List DailyQuote)
    (financial_reports : List FinancialReport) (target_date : ℤ)
    (discount_rate risk_free_rate : ℚ) (result : TradeActionResult)
    (roe_qualified : Bool) (roe_debug : String) (dcf_ratio : ℚ)
    (dcf_debug : String)
    (hroe : StockTrader.check_roe_condition
      (StockTrader.filtered_reports financial_reports target_date) =
      (roe_qualified, roe_debug))
    (hdcf : StockTrader.calculate_dcf_ratio
      (StockTrader.filtered_reports financial_reports target_date)
      (StockTrader.filtered_indicators daily_indicators target_date)
      (StockTrader.filtered_quotes daily_quotes target_date)
      discount_rate risk_free_rate = .ok (dcf_ratio, dcf_debug))
    (hact : StockTrader.get_action daily_indicators daily_quotes
      financial_reports target_date discount_rate risk_free_rate =
      .ok result) :
    (result.action = .BUY ↔ buy_condition roe_qualified dcf_ratio) ∧
    (result.action = .SELL ↔
      (¬buy_condition roe_qualified dcf_ratio ∧
        sell_condition roe_qualified dcf_ratio)) ∧
    (result.action = .HOLD ↔
      (¬buy_condition roe_qualified dcf_ratio ∧
        ¬sell_condition roe_qualified dcf_ratio)) := by
  simp only [StockTrader.get_action] at hact
  rw [hdcf, hroe] at hact
  simp only [] at hact
  split_ifs at hact with hbuy hsell
  · injection hact with h
    subst h
    exact ⟨⟨fun _ => hbuy, fun _ => rfl⟩,
      ⟨(fun h => nomatch h), fun h' => (h'.1 hbuy).elim⟩,
      ⟨(fun h => nomatch h), fun h' => (h'.1 hbuy).elim⟩⟩
  · injection hact with h
    subst h
    exact ⟨⟨(fun h => nomatch h), fun hb => (hbuy hb).elim⟩,
      ⟨fun _ => ⟨hbuy, hsell⟩, fun _ => rfl⟩,
      ⟨(fun h => nomatch h), fun h' => (h'.2 hsell).elim⟩⟩
  · injection hact with h
    subst h
    exact ⟨⟨(fun h => nomatch h), fun hb => (hbuy hb).elim⟩,
      ⟨(fun h => nomatch h), fun h' => (hsell h'.2).elim⟩,
      ⟨fun _ => ⟨hbuy, hsell⟩, fun _ => rfl⟩⟩

/-- Witness for C4: with no data at all the ROE screen fails
(`财报数据不满5年`), the DCF ratio is the neutral `1.0`, and the returned
action is SELL, matching the decision rule at `(false, 1)`. -/
theorem get_action_decision_rule_witness :
    StockTrader.get_action [] [] [] 0 (1 / 20) (1 / 20) =
      .ok (TradeActionResult.mk .SELL "财报数据不满5年"
        "无财报数据或者无每日指票数据:dcf_ratio=1.0") ∧
    ((TradeActionResult.mk TradeAction.SELL "财报数据不满5年"
        "无财报数据或者无每日指票数据:dcf_ratio=1.0").action = .SELL ↔
      (¬buy_condition false 1 ∧ sell_condition false 1)) := by
  have h1 : StockTrader.check_roe_condition
      (StockTrader.filtered_reports [] 0) = (false, "财报数据不满5年") := rfl
  have h2 : StockTrader.calculate_dcf_ratio
      (StockTrader.filtered_reports [] 0)
      (StockTrader.filtered_indicators [] 0)
      (StockTrader.filtered_quotes [] 0) (1 / 20) (1 / 20) =
      .ok (1, "无财报数据或者无每日指票数据:dcf_ratio=1.0") := rfl
  have h3 : StockTrader.get_action [] [] [] 0 (1 / 20) (1 / 20) =
      .ok (TradeActionResult.mk .SELL "财报数据不满5年"
        "无财报数据或者无每日指票数据:dcf_ratio=1.0") := rfl
  exact ⟨h3, (get_action_decision_rule [] [] [] 0 (1 / 20) (1 / 20) _ false
    "财报数据不满5年" 1 "无财报数据或者无每日指票数据:dcf_ratio=1.0"
    h1 h2 h3).2.1⟩

end FinMgr


